import Mathlib

/-!
Shallow embedding of the chatbot GUI demo repository
(`chatbot_gui.py` and `integration_example.py`).

The supervisor protocol yields `(output_thoughts, final_res)` pairs; the
GUI worker thread (`ChatbotGUI.process_user_input`) converts them into
tagged payloads on a FIFO queue, which the Tk timer callback
(`ChatbotGUI.check_message_queue`) drains in order into the transcript
`self.messages`.  We embed the run of one request as a pure function of
the list of elements the supervisor yielded (plus, optionally, an
exception message interrupting the iteration), the queue as the list of
payloads in push order, and the drain as a left fold over that list.

`datetime.now()` timestamps are modelled by a monotone counter `now`
carried in the GUI state.  Tk widget trees are modelled by the data that
`create_message_widget` derives from a message (sender label, background
colour, content); geometry, fonts and colours of sub-labels are
presentation details carried by the same record.
-/

/-- Truthiness of an `Optional[str]` value as Python evaluates `if x:`:
`None` and the empty string `""` are falsy, every other string is truthy. -/
def truthy : Option String → Bool
  | none => false
  | some s => s != ""

/-- An element yielded by a supervisor: the pair
`(output_thoughts, final_res)`.  `MockSupervisor` yields plain strings
(using `""` for "no answer"), `YourActualSupervisor` yields `None`;
`Option String` with the Python truthiness test `truthy` covers both. -/
abbrev Elem := Option String × Option String

/-- The five fixed thoughts of `MockSupervisor.process_query`
(`chatbot_gui.py` lines 19-25); the first interpolates the user input. -/
def mock_thoughts (user_input : String) : List String :=
  ["Analyzing user input: '" ++ user_input ++ "'",
   "Searching knowledge base for relevant information...",
   "Processing contextual understanding...",
   "Formulating comprehensive response...",
   "Finalizing output and ensuring accuracy..."]

/-- The `final_response` f-string of `MockSupervisor.process_query`
(`chatbot_gui.py` line 27). -/
def mock_final_response (user_input : String) : String :=
  "Based on your query '" ++ user_input ++
    "', here's my response: This is a comprehensive answer that addresses your question with detailed information and helpful insights."

/-- `MockSupervisor.process_query` (`chatbot_gui.py` lines 13-37): for
`i, thought in enumerate(thoughts)`, the last iteration yields both the
final thought and the response, earlier iterations yield `(thought, "")`.
The `time.sleep(0.5)` delays are timing only and carry no data. -/
def MockSupervisor.process_query (user_input : String) : List Elem :=
  let thoughts := mock_thoughts user_input
  let final_response := mock_final_response user_input
  thoughts.enum.map (fun p =>
    if p.1 = thoughts.length - 1 then (some p.2, some final_response)
    else (some p.2, some ""))

/-- Python `any(word in user_input.lower() for word in words)`: substring
containment of each keyword in the lowercased input
(`integration_example.py` lines 88-93). -/
def YourActualSupervisor.contains_any (user_input : String) (words : List String) : Bool :=
  words.any (fun w => decide (w.data <:+: user_input.toLower.data))

/-- `YourActualSupervisor._parse_intent` (`integration_example.py`
lines 83-95). -/
def YourActualSupervisor.parse_intent (user_input : String) : String :=
  if YourActualSupervisor.contains_any user_input
      ["question", "what", "how", "why", "when", "where"] then "question"
  else if YourActualSupervisor.contains_any user_input
      ["help", "assist", "support"] then "help_request"
  else if YourActualSupervisor.contains_any user_input
      ["create", "generate", "make", "build"] then "creation"
  else "general"

/-- `YourActualSupervisor._needs_knowledge_search`
(`integration_example.py` lines 106-108). -/
def YourActualSupervisor.needs_knowledge_search (intent : String) : Bool :=
  intent == "question" || intent == "help_request"

/-- `YourActualSupervisor._search_knowledge_base`
(`integration_example.py` lines 110-114): three placeholder entries. -/
def YourActualSupervisor.search_knowledge_base (query : String) : List String :=
  (List.range 3).map (fun i => "Knowledge entry " ++ toString i ++ " for: " ++ query)

/-- `YourActualSupervisor._stream_llm_thoughts` (`integration_example.py`
lines 116-143): the simulated streaming path, a fixed list of five
thoughts (the input and context arguments are unused by the simulation). -/
def YourActualSupervisor.stream_llm_thoughts (user_input : String) : List String :=
  ["🧠 Considering the user's request in detail...",
   "🔄 Cross-referencing with previous context...",
   "💡 Evaluating multiple response strategies...",
   "🎯 Selecting the most appropriate approach...",
   "✅ Preparing structured response..."]

/-- `YourActualSupervisor._generate_final_response` (`integration_example.py`
lines 145-179): the mock triple-quoted response (the context argument is
unused by the mock). -/
def YourActualSupervisor.generate_final_response (user_input : String) : String :=
  "\nBased on your input: \"" ++ user_input ++
    "\"\n\nI've analyzed your request and here's my comprehensive response:\n\nThis is where your actual LLM's response would appear. The response has been generated after considering:\n- Your conversation history\n- Relevant context and background information\n- Multiple possible approaches to address your question\n- The most appropriate tone and detail level for your needs\n\nYour actual supervisor would replace this mock response with the real output from your LLM pipeline.\n"

/-- `YourActualSupervisor.process_input` (`integration_example.py`
lines 37-81), as the list of yielded `(thought, answer)` elements.  The
conversation-history update (lines 77-78, 181-190) mutates supervisor
state but none of the yielded values depend on it (`_gather_context`'s
result is ignored by both `_stream_llm_thoughts` and
`_generate_final_response` in the mock), so the yield sequence is a pure
function of the user input. -/
def YourActualSupervisor.process_input (user_input : String) : List Elem :=
  let intent := YourActualSupervisor.parse_intent user_input
  [(some "🔍 Analyzing user input and parsing intent...", (none : Option String)),
   (some ("📝 Detected intent: " ++ intent), none),
   (some "🔗 Gathering relevant context from conversation history...", none)]
  ++ (if YourActualSupervisor.needs_knowledge_search intent then
        [(some "🔍 Searching knowledge base for relevant information...", (none : Option String)),
         (some ("📚 Found " ++
            toString (YourActualSupervisor.search_knowledge_base user_input).length ++
            " relevant knowledge entries"), none)]
      else [])
  ++ [(some "🤖 Initiating LLM processing...", (none : Option String))]
  ++ (YourActualSupervisor.stream_llm_thoughts user_input).map (fun t => (some t, (none : Option String)))
  ++ [(some "✨ Generating final response...", (none : Option String)),
      ((none : Option String), some (YourActualSupervisor.generate_final_response user_input))]

/-- A payload pushed onto `self.message_queue` by the worker thread:
`("thought", c)`, `("final", c)`, `("error", c)` or `("enable_submit", "")`
(`chatbot_gui.py` lines 234, 238, 242, 246). -/
inductive Payload where
  | thought : String → Payload
  | final : String → Payload
  | error : String → Payload
  | enable_submit : Payload
deriving DecidableEq

/-- One run of the supervisor iteration as seen by the worker: either the
whole yielded sequence (normal exhaustion), or the prefix yielded before
an exception carrying message `msg` was raised while pulling. -/
inductive RunOutcome where
  | ok : List Elem → RunOutcome
  | raises : List Elem → String → RunOutcome
deriving DecidableEq

/-- The payloads the worker pushes for one yielded element
(`chatbot_gui.py` lines 231-238): a `thought` payload if `output_thoughts`
is truthy, then a `final` payload if `final_res` is truthy. -/
def elemPayloads (e : Elem) : List Payload :=
  (if truthy e.1 then [Payload.thought (e.1.getD "")] else [])
  ++ (if truthy e.2 then [Payload.final (e.2.getD "")] else [])

/-- `ChatbotGUI.process_user_input` (`chatbot_gui.py` lines 226-246), as
the full list of payloads pushed for one request, in push order: the
element payloads of the yielded sequence; on an exception, one `error`
payload with the formatted message; in all cases a final `enable_submit`
payload from the `finally` block. -/
def ChatbotGUI.process_user_input : RunOutcome → List Payload
  | RunOutcome.ok es => es.flatMap elemPayloads ++ [Payload.enable_submit]
  | RunOutcome.raises es msg =>
      es.flatMap elemPayloads
        ++ [Payload.error ("Error processing request: " ++ msg), Payload.enable_submit]

/-- `ChatMessage` (`chatbot_gui.py` lines 40-47). -/
structure ChatMessage where
  sender : String
  content : String
  timestamp : Nat
  message_type : String
deriving DecidableEq

/-- The placeholder text of the input box (`chatbot_gui.py` line 182). -/
def placeholder : String := "Type your message here... (Ctrl+Enter to submit)"

/-- The GUI state the claims are about: the transcript `self.messages`,
the `self.is_processing` flag, the `self.show_thoughts` toggle, the text
of the input box, and a monotone counter standing for `datetime.now()`. -/
structure GUIState where
  messages : List ChatMessage
  is_processing : Bool
  show_thoughts : Bool
  input_text : String
  now : Nat
deriving DecidableEq

/-- The initial state built by `ChatbotGUI.__init__` (`chatbot_gui.py`
lines 63-66, 182): empty transcript, not processing, thoughts shown, the
placeholder inserted into the input box. -/
def ChatbotGUI.init : GUIState :=
  { messages := [], is_processing := false, show_thoughts := true,
    input_text := placeholder, now := 0 }

/-- `ChatbotGUI.add_message` (`chatbot_gui.py` lines 270-280): appends a
`ChatMessage` stamped with the current time to `self.messages` (the
widget creation and scrolling are rendering effects, modelled by
`create_message_widget` below). -/
def ChatbotGUI.add_message (s : GUIState) (sender content message_type : String) : GUIState :=
  { s with
    messages := s.messages ++ [{ sender := sender, content := content,
                                 timestamp := s.now, message_type := message_type }],
    now := s.now + 1 }

/-- One arm of the drain loop of `ChatbotGUI.check_message_queue`
(`chatbot_gui.py` lines 252-262): a `thought`/`final` payload becomes an
assistant message of that type, an `error` payload a system message, and
`enable_submit` clears `self.is_processing`. -/
def ChatbotGUI.handle_payload (s : GUIState) : Payload → GUIState
  | Payload.thought c => ChatbotGUI.add_message s "assistant" c "thought"
  | Payload.final c => ChatbotGUI.add_message s "assistant" c "final"
  | Payload.error c => ChatbotGUI.add_message s "system" c "error"
  | Payload.enable_submit => { s with is_processing := false }

/-- `ChatbotGUI.check_message_queue` (`chatbot_gui.py` lines 248-268):
drains every currently queued payload, in FIFO order, into the GUI state. -/
def ChatbotGUI.check_message_queue (s : GUIState) (q : List Payload) : GUIState :=
  q.foldl ChatbotGUI.handle_payload s

/-- Python `str.strip()` with no argument: removes leading and trailing
whitespace characters (here via `Char.isWhitespace`, covering the space,
tab, carriage-return and newline characters that can occur in the Tk
text widget's content). -/
def pyStrip (s : String) : String :=
  String.mk (((s.data.dropWhile Char.isWhitespace).reverse.dropWhile Char.isWhitespace).reverse)

/-- `ChatbotGUI.submit_message` (`chatbot_gui.py` lines 199-224): returns
the new state and, when a worker thread is started, the user input passed
to it.  Early returns: `self.is_processing` set; stripped input empty or
equal to the placeholder.  Otherwise the input box is cleared (and the
placeholder re-inserted by `add_placeholder`), a `user` message is
appended, and `is_processing` is set before the thread starts. -/
def ChatbotGUI.submit_message (s : GUIState) : GUIState × Option String :=
  if s.is_processing then (s, none)
  else
    let user_input := pyStrip s.input_text
    if user_input == "" || user_input == placeholder then (s, none)
    else
      let s1 : GUIState := { s with input_text := placeholder }
      let s2 := ChatbotGUI.add_message s1 "user" user_input "normal"
      ({ s2 with is_processing := true }, some user_input)

/-- The `user` message a successful submission appends
(`chatbot_gui.py` line 215 via `add_message`). -/
def userMsgOf (s : GUIState) : ChatMessage :=
  { sender := "user", content := pyStrip s.input_text,
    timestamp := s.now, message_type := "normal" }

/-- One whole request, end to end: `submit_message`, then — when a worker
was started — the worker's payloads for the supervisor run on the
submitted text, drained by `check_message_queue`.  (The drain is
interleaved with production in the running program; since the queue is
FIFO and the drain is order-preserving and processes every available
payload, draining once at the end reaches the same state.) -/
def ChatbotGUI.run_request (s : GUIState) (outcome : String → RunOutcome) : GUIState :=
  match ChatbotGUI.submit_message s with
  | (s1, none) => s1
  | (s1, some u) =>
      ChatbotGUI.check_message_queue s1 (ChatbotGUI.process_user_input (outcome u))

/-- The data `create_message_widget` derives from a message when it does
render it (`chatbot_gui.py` lines 288-351). -/
structure Widget where
  sender_text : String
  bg_color : String
  content : String
deriving DecidableEq

/-- The sender label, background colour and content of the widget built
for a message (`chatbot_gui.py` lines 297-313, 342-351). -/
def widgetOf (m : ChatMessage) : Widget :=
  { sender_text :=
      if m.sender == "user" then "You"
      else if m.message_type == "thought" then "AI (thinking)"
      else if m.message_type == "error" then "System"
      else "AI Assistant",
    bg_color :=
      if m.sender == "user" then "#e6f3ff"
      else if m.message_type == "thought" then "#f9f9f9"
      else if m.message_type == "error" then "#ffe6e6"
      else "#f0f8e6",
    content := m.content }

/-- `ChatbotGUI.create_message_widget` (`chatbot_gui.py` lines 282-351):
returns no widget for a `thought` message while the toggle is off
(lines 284-286), otherwise the widget for the message. -/
def ChatbotGUI.create_message_widget (show_thoughts : Bool) (m : ChatMessage) : Option Widget :=
  if m.message_type == "thought" && !show_thoughts then none
  else some (widgetOf m)

/-- `ChatbotGUI.toggle_thoughts_display` (`chatbot_gui.py` lines 353-364),
together with the checkbox variable update that precedes the callback:
the new flag value is `b`; every widget is destroyed and the whole of
`self.messages` re-rendered through `create_message_widget`.  Returns the
new state and the list of widgets now displayed, in order. -/
def ChatbotGUI.toggle_thoughts_display (s : GUIState) (b : Bool) : GUIState × List Widget :=
  let s1 : GUIState := { s with show_thoughts := b }
  (s1, s1.messages.filterMap (ChatbotGUI.create_message_widget b))

/-- Modelled from the spec: the repository's browser-rendered front-end
(spec section 1: "Two interchangeable front-ends (a browser-rendered
form-based UI and a desktop-widget UI)") is not among the source files;
its `clear()` renderer operation is specified in section 4.3 as
"empties the transcript and resets `processing = false`.  Always safe to
call." -/
def Renderer.clear (s : GUIState) : GUIState :=
  { s with messages := [], is_processing := false }

/-- Exactly one of the two fields of every yielded element is truthy. -/
def exactlyOneAll (es : List Elem) : Bool :=
  es.all (fun e => truthy e.1 ^^ truthy e.2)

/-- Every yielded element has a truthy thought field. -/
def allThoughtTruthy (es : List Elem) : Bool :=
  es.all (fun e => truthy e.1)

/-- A truthy answer field occurs only in the last element of the
sequence: every element followed by another element has a falsy answer. -/
def answersOnlyLast : List Elem → Bool
  | [] => true
  | [_] => true
  | e :: rest => !(truthy e.2) && answersOnlyLast rest

/-- The projection of a transcript message the ordering claims compare:
sender, message type and content (the timestamp is the appending clock). -/
def msgProj (m : ChatMessage) : String × String × String :=
  (m.sender, m.message_type, m.content)

/-- The message a payload turns into when drained, as a `msgProj`
triple; `enable_submit` produces no message. -/
def payloadProj : Payload → Option (String × String × String)
  | Payload.thought c => some ("assistant", "thought", c)
  | Payload.final c => some ("assistant", "final", c)
  | Payload.error c => some ("system", "error", c)
  | Payload.enable_submit => none

/-- Recognises the `enable_submit` ("done") payload. -/
def isDone : Payload → Bool
  | Payload.enable_submit => true
  | _ => false

/-- Recognises an `error` payload. -/
def isErr : Payload → Bool
  | Payload.error _ => true
  | _ => false

/-- The number of truthy thought fields the supervisor yielded before the
run ended (normally or by exception). -/
def numThoughts : RunOutcome → Nat
  | RunOutcome.ok es => es.countP (fun e => truthy e.1)
  | RunOutcome.raises es _ => es.countP (fun e => truthy e.1)

/-- The number of terminal transcript messages a run produces: the truthy
answer fields yielded, plus one error message when the run raised. -/
def terminalCount : RunOutcome → Nat
  | RunOutcome.ok es => es.countP (fun e => truthy e.2)
  | RunOutcome.raises es _ => es.countP (fun e => truthy e.2) + 1

/-! Helper lemmas. -/

lemma append_ne_empty (a b : String) (h : a ≠ "") : a ++ b ≠ "" := by
  intro hab
  apply h
  have hd := congrArg String.data hab
  rw [String.data_append] at hd
  have ha : a.data = [] := (List.append_eq_nil.mp hd).1
  cases a with
  | mk d =>
    cases ha
    rfl

lemma bne_empty_append (a b : String) (h : a ≠ "") : ((a ++ b) != "") = true := by
  simp only [bne_iff_ne, ne_eq]
  exact append_ne_empty a b h

lemma truthy_none_eq : truthy none = false := rfl

lemma truthy_some_eq (s : String) : truthy (some s) = (s != "") := rfl

/-- The mock supervisor's yield sequence, spelled out. -/
lemma MockSupervisor.process_query_eq (u : String) :
    MockSupervisor.process_query u =
      [(some ("Analyzing user input: '" ++ u ++ "'"), some ""),
       (some "Searching knowledge base for relevant information...", some ""),
       (some "Processing contextual understanding...", some ""),
       (some "Formulating comprehensive response...", some ""),
       (some "Finalizing output and ensuring accuracy...", some (mock_final_response u))] :=
  rfl

/-! Claim C1. -/

/-- C1, counterexample: the claim "each element of the sequence yielded
by a supervisor has exactly one of its two fields (thought, answer)
non-empty" fails on `MockSupervisor.process_query` at input "hi": its
last element carries both a non-empty thought and a non-empty answer. -/
theorem claim_C1_counterexample :
    ¬ (∀ e ∈ MockSupervisor.process_query "hi", (truthy e.1 ^^ truthy e.2) = true) := by
  decide

/-- C1, amended: for every user input, each element yielded by
`YourActualSupervisor.process_input` has exactly one of its two fields
non-empty and a non-empty answer occurs only in the last element; each
element yielded by `MockSupervisor.process_query` has a non-empty
thought, its answer field is non-empty exactly in the last element (which
therefore has both fields non-empty), and no element follows a non-empty
answer in either sequence. -/
theorem claim_C1_amended (u : String) :
    exactlyOneAll (YourActualSupervisor.process_input u) = true
    ∧ answersOnlyLast (YourActualSupervisor.process_input u) = true
    ∧ allThoughtTruthy (MockSupervisor.process_query u) = true
    ∧ answersOnlyLast (MockSupervisor.process_query u) = true
    ∧ (MockSupervisor.process_query u).map (fun e => truthy e.2)
        = [false, false, false, false, true] := by
  have hd : (("📝 Detected intent: " ++ YourActualSupervisor.parse_intent u) != "") = true :=
    bne_empty_append _ _ (by decide)
  have hg : ((YourActualSupervisor.generate_final_response u) != "") = true := by
    unfold YourActualSupervisor.generate_final_response
    apply bne_empty_append
    apply append_ne_empty
    decide
  have h1 : (("Analyzing user input: '" ++ u ++ "'") != "") = true := by
    apply bne_empty_append
    apply append_ne_empty
    decide
  have hfin : ((mock_final_response u) != "") = true := by
    unfold mock_final_response
    apply bne_empty_append
    apply append_ne_empty
    decide
  have hk : (("📚 Found " ++ toString (YourActualSupervisor.search_knowledge_base u).length
      ++ " relevant knowledge entries") != "") = true := by
    apply bne_empty_append
    apply append_ne_empty
    decide
  refine ⟨?_, ?_, ?_, ?_, ?_⟩
  · cases h : YourActualSupervisor.needs_knowledge_search (YourActualSupervisor.parse_intent u) <;>
      simp [YourActualSupervisor.process_input, h, YourActualSupervisor.stream_llm_thoughts,
        exactlyOneAll, truthy_some_eq, truthy_none_eq, hd, hg, hk]
  · cases h : YourActualSupervisor.needs_knowledge_search (YourActualSupervisor.parse_intent u) <;>
      simp [YourActualSupervisor.process_input, h, YourActualSupervisor.stream_llm_thoughts,
        answersOnlyLast, truthy_none_eq]
  · rw [MockSupervisor.process_query_eq]
    simp [allThoughtTruthy, truthy_some_eq, h1]
  · rw [MockSupervisor.process_query_eq]
    simp [answersOnlyLast, truthy_some_eq]
  · rw [MockSupervisor.process_query_eq]
    simp [truthy_some_eq, hfin]

/-! Claim C2. -/

lemma elemPayloads_countP_isDone (e : Elem) : (elemPayloads e).countP isDone = 0 := by
  cases h1 : truthy e.1 <;> cases h2 : truthy e.2 <;>
    simp [elemPayloads, h1, h2, isDone]

lemma elemPayloads_countP_isErr (e : Elem) : (elemPayloads e).countP isErr = 0 := by
  cases h1 : truthy e.1 <;> cases h2 : truthy e.2 <;>
    simp [elemPayloads, h1, h2, isErr]

lemma flatMap_countP_isDone (es : List Elem) :
    (es.flatMap elemPayloads).countP isDone = 0 := by
  induction es with
  | nil => simp
  | cons e es ih => simp [List.flatMap_cons, List.countP_append, ih, elemPayloads_countP_isDone]

lemma flatMap_countP_isErr (es : List Elem) :
    (es.flatMap elemPayloads).countP isErr = 0 := by
  induction es with
  | nil => simp
  | cons e es ih => simp [List.flatMap_cons, List.countP_append, ih, elemPayloads_countP_isErr]

lemma check_message_queue_append (s : GUIState) (q1 q2 : List Payload) :
    ChatbotGUI.check_message_queue s (q1 ++ q2)
      = ChatbotGUI.check_message_queue (ChatbotGUI.check_message_queue s q1) q2 := by
  simp [ChatbotGUI.check_message_queue]

lemma check_flag_false (s : GUIState) (q : List Payload) :
    (ChatbotGUI.check_message_queue s (q ++ [Payload.enable_submit])).is_processing = false := by
  rw [check_message_queue_append]
  rfl

lemma process_user_input_ends_done (o : RunOutcome) :
    ∃ q0, ChatbotGUI.process_user_input o = q0 ++ [Payload.enable_submit] := by
  cases o with
  | ok es => exact ⟨es.flatMap elemPayloads, rfl⟩
  | raises es msg =>
      exact ⟨es.flatMap elemPayloads ++ [Payload.error ("Error processing request: " ++ msg)],
        by simp [ChatbotGUI.process_user_input]⟩

/-- C2: for every supervisor run (normal or raising) the worker pushes
the `enable_submit` ("done") payload exactly once and it is the last
payload pushed; a raising run produces exactly one `error` payload,
pushed with the formatted exception message immediately before `done`;
and draining the queue always leaves the processing flag cleared, so the
flag is never left permanently set. -/
theorem claim_C2 (o : RunOutcome) (s : GUIState) :
    (ChatbotGUI.process_user_input o).countP isDone = 1
    ∧ (ChatbotGUI.process_user_input o).getLast? = some Payload.enable_submit
    ∧ (∀ es msg, ChatbotGUI.process_user_input (RunOutcome.raises es msg)
        = es.flatMap elemPayloads
          ++ [Payload.error ("Error processing request: " ++ msg), Payload.enable_submit])
    ∧ (∀ es msg, (ChatbotGUI.process_user_input (RunOutcome.raises es msg)).countP isErr = 1)
    ∧ (ChatbotGUI.check_message_queue s (ChatbotGUI.process_user_input o)).is_processing = false := by
  refine ⟨?_, ?_, ?_, ?_, ?_⟩
  · cases o <;> simp [ChatbotGUI.process_user_input, List.countP_append,
      flatMap_countP_isDone, isDone, List.countP_cons]
  · obtain ⟨q0, hq⟩ := process_user_input_ends_done o
    rw [hq]
    simp
  · intro es msg
    rfl
  · intro es msg
    simp [ChatbotGUI.process_user_input, List.countP_append, flatMap_countP_isErr,
      isErr, List.countP_cons]
  · obtain ⟨q0, hq⟩ := process_user_input_ends_done o
    rw [hq]
    exact check_flag_false s q0

/-! Claims C3 and C4. -/

lemma check_message_queue_messages (q : List Payload) : ∀ s : GUIState,
    ∃ new : List ChatMessage,
      (ChatbotGUI.check_message_queue s q).messages = s.messages ++ new
      ∧ new.map msgProj = q.filterMap payloadProj := by
  induction q with
  | nil =>
      intro s
      exact ⟨[], by simp [ChatbotGUI.check_message_queue], by simp⟩
  | cons p q ih =>
      intro s
      obtain ⟨new, h1, h2⟩ := ih (ChatbotGUI.handle_payload s p)
      have hstep : ChatbotGUI.check_message_queue s (p :: q)
          = ChatbotGUI.check_message_queue (ChatbotGUI.handle_payload s p) q := rfl
      cases p with
      | thought c =>
          refine ⟨{ sender := "assistant", content := c, timestamp := s.now,
                    message_type := "thought" } :: new, ?_, ?_⟩
          · rw [hstep, h1]
            simp [ChatbotGUI.handle_payload, ChatbotGUI.add_message]
          · simp [h2, payloadProj, msgProj]
      | final c =>
          refine ⟨{ sender := "assistant", content := c, timestamp := s.now,
                    message_type := "final" } :: new, ?_, ?_⟩
          · rw [hstep, h1]
            simp [ChatbotGUI.handle_payload, ChatbotGUI.add_message]
          · simp [h2, payloadProj, msgProj]
      | error c =>
          refine ⟨{ sender := "system", content := c, timestamp := s.now,
                    message_type := "error" } :: new, ?_, ?_⟩
          · rw [hstep, h1]
            simp [ChatbotGUI.handle_payload, ChatbotGUI.add_message]
          · simp [h2, payloadProj, msgProj]
      | enable_submit =>
          refine ⟨new, ?_, ?_⟩
          · rw [hstep, h1]
            simp [ChatbotGUI.handle_payload]
          · simp [h2, payloadProj]

lemma check_message_queue_length (s : GUIState) (q : List Payload) :
    (ChatbotGUI.check_message_queue s q).messages.length
      = s.messages.length + (q.filterMap payloadProj).length := by
  obtain ⟨new, h1, h2⟩ := check_message_queue_messages q s
  rw [h1, List.length_append]
  have h3 := congrArg List.length h2
  simpa using h3

lemma length_filterMap_flatMap (es : List Elem) :
    ((es.flatMap elemPayloads).filterMap payloadProj).length
      = es.countP (fun e => truthy e.1) + es.countP (fun e => truthy e.2) := by
  induction es with
  | nil => simp
  | cons e es ih =>
      cases h1 : truthy e.1 <;> cases h2 : truthy e.2 <;>
        simp [List.flatMap_cons, List.filterMap_append, elemPayloads, h1, h2, payloadProj,
          List.countP_cons, ih] <;> omega

/-- C3: draining one request's payloads only appends to the transcript —
the prior transcript is preserved unchanged as a prefix (no reordering or
merging across requests) and the appended messages are, in order, exactly
the projections of the payloads the worker pushed, which are themselves
in the supervisor's yield order; concretely, for a run of the repository's
`MockSupervisor`, the transcript gains the five thoughts in yield order
followed by the terminal `final` message, last. -/
theorem claim_C3 (s : GUIState) (o : RunOutcome) :
    (∃ new, (ChatbotGUI.check_message_queue s (ChatbotGUI.process_user_input o)).messages
        = s.messages ++ new
      ∧ new.map msgProj = (ChatbotGUI.process_user_input o).filterMap payloadProj)
    ∧ (∀ u, (ChatbotGUI.check_message_queue s
          (ChatbotGUI.process_user_input
            (RunOutcome.ok (MockSupervisor.process_query u)))).messages.map msgProj
        = s.messages.map msgProj
          ++ ((mock_thoughts u).map (fun t => ("assistant", "thought", t))
              ++ [("assistant", "final", mock_final_response u)])) := by
  refine ⟨check_message_queue_messages _ s, ?_⟩
  intro u
  obtain ⟨new, h1, h2⟩ :=
    check_message_queue_messages
      (ChatbotGUI.process_user_input (RunOutcome.ok (MockSupervisor.process_query u))) s
  rw [h1, List.map_append, h2]
  have ha : (("Analyzing user input: '" ++ u ++ "'") != "") = true := by
    apply bne_empty_append
    apply append_ne_empty
    decide
  have hfin : ((mock_final_response u) != "") = true := by
    unfold mock_final_response
    apply bne_empty_append
    apply append_ne_empty
    decide
  rw [MockSupervisor.process_query_eq]
  simp [ChatbotGUI.process_user_input, elemPayloads, truthy_some_eq, ha, hfin,
    payloadProj, mock_thoughts]

lemma submit_message_success (s : GUIState) (hp : s.is_processing = false)
    (h1 : pyStrip s.input_text ≠ "") (h2 : pyStrip s.input_text ≠ placeholder) :
    ChatbotGUI.submit_message s =
      ({ messages := s.messages ++ [userMsgOf s], is_processing := true,
         show_thoughts := s.show_thoughts, input_text := placeholder,
         now := s.now + 1 }, some (pyStrip s.input_text)) := by
  have hc : (pyStrip s.input_text == "" || pyStrip s.input_text == placeholder) = false := by
    simp [h1, h2]
  simp [ChatbotGUI.submit_message, hp, hc, ChatbotGUI.add_message, userMsgOf]

lemma run_request_success (s : GUIState) (f : String → RunOutcome)
    (hp : s.is_processing = false) (h1 : pyStrip s.input_text ≠ "")
    (h2 : pyStrip s.input_text ≠ placeholder) :
    ChatbotGUI.run_request s f
      = ChatbotGUI.check_message_queue
          { messages := s.messages ++ [userMsgOf s], is_processing := true,
            show_thoughts := s.show_thoughts, input_text := placeholder,
            now := s.now + 1 }
          (ChatbotGUI.process_user_input (f (pyStrip s.input_text))) := by
  simp only [ChatbotGUI.run_request]
  rw [submit_message_success s hp h1 h2]

/-- C4: for every valid submission (not processing, stripped input
non-empty and not the placeholder) whose supervisor run produces exactly
one terminal message (one truthy answer on normal exhaustion, or no
truthy answer before an exception), the transcript length afterwards is
its length before plus 1 (the user message) plus the number of thoughts
the supervisor yielded plus 1 (the terminal answer or error message). -/
theorem claim_C4 (s : GUIState) (o : RunOutcome)
    (hp : s.is_processing = false)
    (h1 : pyStrip s.input_text ≠ "")
    (h2 : pyStrip s.input_text ≠ placeholder)
    (ht : terminalCount o = 1) :
    (ChatbotGUI.run_request s (fun _ => o)).messages.length
      = s.messages.length + 1 + numThoughts o + 1 := by
  rw [run_request_success s _ hp h1 h2, check_message_queue_length]
  cases o with
  | ok es =>
      simp only [terminalCount] at ht
      simp [ChatbotGUI.process_user_input, List.filterMap_append, List.length_append,
        length_filterMap_flatMap, numThoughts, payloadProj]
      omega
  | raises es msg =>
      simp only [terminalCount] at ht
      simp [ChatbotGUI.process_user_input, List.filterMap_append, List.length_append,
        length_filterMap_flatMap, numThoughts, payloadProj]
      omega

/-- C4, witness: a concrete valid submission ("hello" from the initial
state) against a supervisor yielding one thought and then one answer
ends with transcript length 0 + 1 + 1 + 1. -/
theorem claim_C4_witness :
    terminalCount (RunOutcome.ok [((some "t" : Option String), some ""), (none, some "a")]) = 1
    ∧ (ChatbotGUI.run_request { ChatbotGUI.init with input_text := "hello" }
          (fun _ => RunOutcome.ok [((some "t" : Option String), some ""), (none, some "a")])).messages.length
        = ({ ChatbotGUI.init with input_text := "hello" } : GUIState).messages.length + 1
          + numThoughts (RunOutcome.ok [((some "t" : Option String), some ""), (none, some "a")]) + 1 :=
  ⟨by decide,
   claim_C4 { ChatbotGUI.init with input_text := "hello" }
     (RunOutcome.ok [((some "t" : Option String), some ""), (none, some "a")])
     rfl (by decide) (by decide) (by decide)⟩

/-! Claim C5. -/

/-- C5, counterexample: in the initial state the processing flag is
false and the input box holds the placeholder text, whose stripped value
is non-empty (so not empty or whitespace-only); the claim then requires
`submit` to append a user message and set the flag, but
`submit_message` is a no-op. -/
theorem claim_C5_counterexample :
    ChatbotGUI.init.is_processing = false
    ∧ pyStrip ChatbotGUI.init.input_text ≠ ""
    ∧ ChatbotGUI.submit_message ChatbotGUI.init = (ChatbotGUI.init, none) := by
  decide

/-- C5, amended: a call to submit is a no-op leaving the whole state
unchanged if the processing flag is true, or the stripped text is empty
(empty or whitespace-only input), or the stripped text equals the
placeholder string; otherwise it appends exactly one user-kind message,
sets the processing flag, and starts the worker on the stripped text. -/
theorem claim_C5_amended (s : GUIState) :
    ((s.is_processing = true ∨ pyStrip s.input_text = "" ∨ pyStrip s.input_text = placeholder) →
      ChatbotGUI.submit_message s = (s, none))
    ∧ (s.is_processing = false → pyStrip s.input_text ≠ "" → pyStrip s.input_text ≠ placeholder →
      (ChatbotGUI.submit_message s).1.messages = s.messages ++ [userMsgOf s]
      ∧ (ChatbotGUI.submit_message s).1.is_processing = true
      ∧ (ChatbotGUI.submit_message s).2 = some (pyStrip s.input_text)) := by
  constructor
  · rintro (hp | he | hph)
    · simp [ChatbotGUI.submit_message, hp]
    · cases hb : s.is_processing
      · simp [ChatbotGUI.submit_message, hb, he]
      · simp [ChatbotGUI.submit_message, hb]
    · cases hb : s.is_processing
      · simp [ChatbotGUI.submit_message, hb, hph]
      · simp [ChatbotGUI.submit_message, hb]
  · intro hp h1 h2
    rw [submit_message_success s hp h1 h2]
    simp

/-- C5, witness: submitting the concrete text "hi" from the initial
state appends one user message, sets the flag and starts the worker. -/
theorem claim_C5_witness :
    ({ ChatbotGUI.init with input_text := "hi" } : GUIState).is_processing = false
    ∧ pyStrip ({ ChatbotGUI.init with input_text := "hi" } : GUIState).input_text ≠ ""
    ∧ pyStrip ({ ChatbotGUI.init with input_text := "hi" } : GUIState).input_text ≠ placeholder
    ∧ ((ChatbotGUI.submit_message { ChatbotGUI.init with input_text := "hi" }).1.messages
        = ({ ChatbotGUI.init with input_text := "hi" } : GUIState).messages
          ++ [userMsgOf { ChatbotGUI.init with input_text := "hi" }]
      ∧ (ChatbotGUI.submit_message { ChatbotGUI.init with input_text := "hi" }).1.is_processing = true
      ∧ (ChatbotGUI.submit_message { ChatbotGUI.init with input_text := "hi" }).2
          = some (pyStrip ({ ChatbotGUI.init with input_text := "hi" } : GUIState).input_text)) :=
  ⟨rfl, by decide, by decide,
   (claim_C5_amended { ChatbotGUI.init with input_text := "hi" }).2 rfl (by decide) (by decide)⟩

/-! Claim C6. -/

lemma flatMap_all_thought (es : List Elem) (h : ∀ e ∈ es, truthy e.2 = false) :
    ∀ p ∈ es.flatMap elemPayloads, ∃ c, p = Payload.thought c := by
  induction es with
  | nil => simp
  | cons e es ih =>
      intro p hp
      rw [List.flatMap_cons, List.mem_append] at hp
      rcases hp with hp | hp
      · have he : truthy e.2 = false := h e (List.mem_cons_self e es)
        cases h1 : truthy e.1 <;> simp [elemPayloads, h1, he] at hp
        exact ⟨_, hp⟩
      · exact ih (fun e' he' => h e' (List.mem_cons_of_mem _ he')) p hp

/-- C6, counterexample: a request whose supervisor yields a single
thought and never a truthy answer ends with the transcript holding only
the user message and the thought — no error-kind (nor any terminal)
message is appended, contradicting the claim that exhaustion without an
answer is surfaced as an error message; the processing flag is cleared. -/
theorem claim_C6_counterexample :
    (ChatbotGUI.run_request { ChatbotGUI.init with input_text := "hello" }
        (fun _ => RunOutcome.ok [((some "t" : Option String), some "")])).messages.map msgProj
      = [("user", "normal", "hello"), ("assistant", "thought", "t")]
    ∧ (ChatbotGUI.run_request { ChatbotGUI.init with input_text := "hello" }
        (fun _ => RunOutcome.ok [((some "t" : Option String), some "")])).is_processing = false := by
  decide

/-- C6, amended: when the supervisor's sequence is exhausted without ever
yielding a non-empty answer, the worker still pushes `done` and the
processing flag is cleared (it is not left stuck), but no terminal
message is appended: every message added to the transcript by the drain
is a thought — the exhaustion itself is silently ignored. -/
theorem claim_C6_amended (s : GUIState) (es : List Elem)
    (h : ∀ e ∈ es, truthy e.2 = false) :
    ∃ new, (ChatbotGUI.check_message_queue s
        (ChatbotGUI.process_user_input (RunOutcome.ok es))).messages = s.messages ++ new
      ∧ (∀ m ∈ new, m.sender = "assistant" ∧ m.message_type = "thought")
      ∧ (ChatbotGUI.check_message_queue s
          (ChatbotGUI.process_user_input (RunOutcome.ok es))).is_processing = false := by
  obtain ⟨new, h1, h2⟩ :=
    check_message_queue_messages (ChatbotGUI.process_user_input (RunOutcome.ok es)) s
  refine ⟨new, h1, ?_, ?_⟩
  · intro m hm
    have hmem : msgProj m ∈ new.map msgProj := List.mem_map_of_mem msgProj hm
    rw [h2] at hmem
    simp only [ChatbotGUI.process_user_input, List.filterMap_append] at hmem
    have hnil : List.filterMap payloadProj [Payload.enable_submit] = [] := rfl
    rw [hnil, List.append_nil] at hmem
    obtain ⟨p, hp, hproj⟩ := List.mem_filterMap.mp hmem
    obtain ⟨c, rfl⟩ := flatMap_all_thought es h p hp
    simp only [payloadProj, Option.some.injEq] at hproj
    have hs := congrArg (fun x => x.1) hproj
    have hty := congrArg (fun x => x.2.1) hproj
    exact ⟨hs.symm, hty.symm⟩
  · obtain ⟨q0, hq⟩ := process_user_input_ends_done (RunOutcome.ok es)
    rw [hq]
    exact check_flag_false s q0

/-- C6, amended, witness: the concrete thought-only run used by the
counterexample satisfies the amended description. -/
theorem claim_C6_witness :
    (∀ e ∈ ([((some "t" : Option String), some "")] : List Elem), truthy e.2 = false)
    ∧ ∃ new, (ChatbotGUI.check_message_queue ChatbotGUI.init
        (ChatbotGUI.process_user_input
          (RunOutcome.ok [((some "t" : Option String), some "")]))).messages
        = ChatbotGUI.init.messages ++ new
      ∧ (∀ m ∈ new, m.sender = "assistant" ∧ m.message_type = "thought")
      ∧ (ChatbotGUI.check_message_queue ChatbotGUI.init
          (ChatbotGUI.process_user_input
            (RunOutcome.ok [((some "t" : Option String), some "")]))).is_processing = false :=
  ⟨by decide,
   claim_C6_amended ChatbotGUI.init [((some "t" : Option String), some "")] (by decide)⟩

/-! Claims C7 and C8. -/

lemma filterMap_create_eq (b : Bool) (l : List ChatMessage) :
    l.filterMap (ChatbotGUI.create_message_widget b)
      = (l.filter (fun m => !(m.message_type == "thought") || b)).map widgetOf := by
  induction l with
  | nil => rfl
  | cons m ms ih =>
      cases hth : (m.message_type == "thought") <;> cases b <;>
        simp [ChatbotGUI.create_message_widget, hth, ih, List.filter_cons]

/-- C7: for every transcript state and every value of the visibility
flag, toggling thought visibility leaves the transcript unchanged (in
length, order and content — the state's message list is untouched), and
the rendered widgets are exactly the non-thought messages plus, when the
flag is on, the thought messages, each rendered by the same widget
function — so only which thought-kind entries are rendered changes. -/
theorem claim_C7 (s : GUIState) (b : Bool) :
    (ChatbotGUI.toggle_thoughts_display s b).1.messages = s.messages
    ∧ (ChatbotGUI.toggle_thoughts_display s b).2
        = (s.messages.filter (fun m => !(m.message_type == "thought") || b)).map widgetOf :=
  ⟨rfl, filterMap_create_eq b s.messages⟩

/-- C8: `clear()` (from the spec's renderer contract; the
browser-rendered front-end holding it is not among the given source
files, see `Renderer.clear`) empties the transcript and resets the
processing flag, from any state. -/
theorem claim_C8 (s : GUIState) :
    (Renderer.clear s).messages = [] ∧ (Renderer.clear s).is_processing = false :=
  ⟨rfl, rfl⟩

/-! Claims C9 and C10. -/

/-- C9: whenever the stripped input equals the placeholder string, submit
is a no-op — whole state unchanged, no worker started — even though the
stripped text is non-empty (hence not whitespace-only). -/
theorem claim_C9 (s : GUIState) (h : pyStrip s.input_text = placeholder) :
    ChatbotGUI.submit_message s = (s, none) ∧ pyStrip s.input_text ≠ "" := by
  constructor
  · cases hb : s.is_processing
    · simp [ChatbotGUI.submit_message, hb, h]
    · simp [ChatbotGUI.submit_message, hb]
  · rw [h]
    decide

/-- C9, witness: the initial state's input box holds exactly the
placeholder and submitting is a no-op. -/
theorem claim_C9_witness :
    pyStrip ChatbotGUI.init.input_text = placeholder
    ∧ (ChatbotGUI.submit_message ChatbotGUI.init = (ChatbotGUI.init, none)
        ∧ pyStrip ChatbotGUI.init.input_text ≠ "") :=
  ⟨by decide, claim_C9 ChatbotGUI.init (by decide)⟩

/-- C10: an element with both fields non-empty makes the worker push a
thought payload immediately followed by a final payload, and the worker
keeps consuming: elements yielded after the non-empty answer are also
delivered, and the transcript gains exactly two messages from that one
element besides those of the surrounding elements. -/
theorem claim_C10 (pre post : List Elem) (t a : String) (s : GUIState)
    (ht : t ≠ "") (ha : a ≠ "") :
    ChatbotGUI.process_user_input (RunOutcome.ok (pre ++ (some t, some a) :: post))
      = pre.flatMap elemPayloads
        ++ Payload.thought t :: Payload.final a
          :: (post.flatMap elemPayloads ++ [Payload.enable_submit])
    ∧ (ChatbotGUI.check_message_queue s
        (ChatbotGUI.process_user_input (RunOutcome.ok (pre ++ (some t, some a) :: post)))).messages.length
      = s.messages.length + ((pre.flatMap elemPayloads).filterMap payloadProj).length + 2
        + ((post.flatMap elemPayloads).filterMap payloadProj).length := by
  constructor
  · simp [ChatbotGUI.process_user_input, List.flatMap_append, List.flatMap_cons,
      elemPayloads, truthy_some_eq, bne_iff_ne, ht, ha]
  · rw [check_message_queue_length]
    simp [ChatbotGUI.process_user_input, List.flatMap_append, List.flatMap_cons,
      List.filterMap_append, List.length_append, elemPayloads, truthy_some_eq,
      bne_iff_ne, ht, ha, payloadProj]
    omega

/-- C10, witness: the concrete element ("t", "a") followed by a
thought-only element ("x", "") — both payloads pushed for it, the later
element still delivered, and the transcript length accounts two messages
for the double element. -/
theorem claim_C10_witness :
    ("t" : String) ≠ "" ∧ ("a" : String) ≠ ""
    ∧ (ChatbotGUI.process_user_input
          (RunOutcome.ok ([] ++ ((some "t" : Option String), (some "a" : Option String))
            :: [((some "x" : Option String), some "")]))
        = ([] : List Elem).flatMap elemPayloads
          ++ Payload.thought "t" :: Payload.final "a"
            :: (([((some "x" : Option String), some "")] : List Elem).flatMap elemPayloads
              ++ [Payload.enable_submit])
      ∧ (ChatbotGUI.check_message_queue ChatbotGUI.init
          (ChatbotGUI.process_user_input
            (RunOutcome.ok ([] ++ ((some "t" : Option String), (some "a" : Option String))
              :: [((some "x" : Option String), some "")])))).messages.length
        = ChatbotGUI.init.messages.length
          + ((([] : List Elem).flatMap elemPayloads).filterMap payloadProj).length + 2
          + ((([((some "x" : Option String), some "")] : List Elem).flatMap
              elemPayloads).filterMap payloadProj).length) :=
  ⟨by decide, by decide,
   claim_C10 [] [((some "x" : Option String), some "")] "t" "a" ChatbotGUI.init
     (by decide) (by decide)⟩
